import Mathlib

/-!
Verification of the ObjectFingerprint pipeline (3D object generation,
camera scanning, rendering, CLI orchestration, and W3C-PROV-style
provenance tracking) against its natural-language specification.

The Python modules are embedded shallowly:

* `src/generator.py` (`ObjectGenerator`)  : `mkObjectGenerator`, `generate`,
  `exportMesh`;
* `src/scanner.py` (`CameraScanner`)      : `mkCameraScanner`, `captureFrame`,
  `captureMultiple`, `saveFrame`, `saveAllFrames`, `getFrameCount`;
* `src/renderer.py` (`MeshRenderer`)      : `mkMeshRenderer`, `renderToImage`;
* `src/main.py` (`run_generate`/`run_scan`) : `runGenerate`, `runScan`;
* `src/provenance.py` (`ProvenanceTracker`) is imported by the repository but
  its source file is absent; it is modelled from the specification, see the
  doc comments of the corresponding definitions.

Python exceptions are embedded as `Except PyErr`; machine-level effects
(camera device, file system) are passed in explicitly as environments.
Python `float` parameters are embedded as rationals: the claims under
study only compare them against `0`, never exercise rounding.
-/

set_option autoImplicit false

namespace ObjFingerprint

/-! ### Python `pathlib` model

Every module returns output paths built with
`str(Path(filepath).with_suffix(".ext"))`.  POSIX `pathlib` parses the
path string into a root (one `'/'` for a leading slash, `'//'` for
exactly two) and components (`'/'`-separated, with empty and `'.'`
components dropped); the *name* is the last component.  `with_suffix`:

* raises `ValueError` when the name is empty (e.g. `""`, `"."`, `"/"`);
* otherwise computes the name's current suffix — the part from its last
  `'.'`, provided that dot is neither the name's first nor last
  character — drops it, appends the new extension, and re-joins the
  (normalized) path.

The model returns `none` for the `ValueError` case.  The suffix-argument
validation of `with_suffix` is not modelled: every call site of the
repository passes a literal valid suffix (`".png"` or `"." + fmt` with a
checked format). -/

/-- Index of the last occurrence of `'.'` in a list of characters. -/
def lastDotIdx? : List Char → Option Nat
  | [] => none
  | c :: cs =>
    match lastDotIdx? cs with
    | some i => some (i + 1)
    | none => if c = '.' then some 0 else none

/-- Length of the Python `PurePath.suffix` of a file *name*: the final
extension, empty when the last dot is leading (hidden file) or trailing. -/
def pySuffixLen (l : List Char) : Nat :=
  match lastDotIdx? l with
  | some i => if 0 < i ∧ i + 1 < l.length then l.length - i else 0
  | none => 0

/-- Split a path's characters at every `'/'` (the separators themselves
are dropped; empty pieces are kept for the parser to discard). -/
def splitOnSlash : List Char → List (List Char)
  | [] => [[]]
  | c :: cs =>
    match splitOnSlash cs with
    | [] => [[]]
    | p :: ps => if c = '/' then [] :: p :: ps else (c :: p) :: ps

/-- The parsed components of a POSIX path: `pathlib` drops empty and
`'.'` components. -/
def pyParts (path : String) : List (List Char) :=
  (splitOnSlash path.toList).filter (fun c => decide (¬ c = [] ∧ ¬ c = ['.']))

/-- Number of leading `'/'` characters of a path string. -/
def leadSlashCount : List Char → Nat
  | [] => 0
  | c :: cs => if c = '/' then leadSlashCount cs + 1 else 0

/-- The POSIX root `pathlib` keeps: `'//'` for exactly two leading
slashes, `'/'` for one or for three and more, nothing otherwise. -/
def rootChars (l : List Char) : List Char :=
  if leadSlashCount l = 2 then ['/', '/']
  else if 1 ≤ leadSlashCount l then ['/']
  else []

/-- Re-join parsed components with `'/'` (the `str()` of the path). -/
def joinParts : List (List Char) → List Char
  | [] => []
  | [p] => p
  | p :: q :: ps => p ++ '/' :: joinParts (q :: ps)

/-- Python `str(Path(path).with_suffix(ext))`: `none` embeds the
`ValueError` on an empty name; otherwise the final component's suffix is
replaced by `ext` (appended when the component has none) and the
normalized path re-joined under its root. -/
def pyWithSuffix (path ext : String) : Option String :=
  match (pyParts path).getLast? with
  | none => none
  | some nm =>
    let newName := nm.take (nm.length - pySuffixLen nm) ++ ext.toList
    some (String.mk (rootChars path.toList
      ++ joinParts ((pyParts path).dropLast ++ [newName])))

/-- A name without any dot has no Python suffix. -/
theorem lastDotIdx?_eq_none {l : List Char} (h : '.' ∉ l) :
    lastDotIdx? l = none := by
  induction l with
  | nil => rfl
  | cons c cs ih =>
    simp only [List.mem_cons, not_or] at h
    have hc : ¬ c = '.' := fun hcc => h.1 hcc.symm
    simp [lastDotIdx?, ih h.2, hc]

/-- A name with no dot has Python suffix length zero. -/
theorem pySuffixLen_of_none {l : List Char} (h : lastDotIdx? l = none) :
    pySuffixLen l = 0 := by
  unfold pySuffixLen
  rw [h]

/-- A slash-free string is a single piece. -/
theorem splitOnSlash_no_slash {l : List Char} (h : '/' ∉ l) :
    splitOnSlash l = [l] := by
  induction l with
  | nil => rfl
  | cons c cs ih =>
    simp only [List.mem_cons, not_or] at h
    have hc : ¬ c = '/' := fun hcc => h.1 hcc.symm
    rw [splitOnSlash, ih h.2]
    simp [hc]

/-- A slash-free string has no root. -/
theorem rootChars_no_slash {l : List Char} (h : '/' ∉ l) :
    rootChars l = [] := by
  have hz : leadSlashCount l = 0 := by
    cases l with
    | nil => rfl
    | cons c cs =>
      simp only [List.mem_cons, not_or] at h
      have hc : ¬ c = '/' := fun hcc => h.1 hcc.symm
      simp [leadSlashCount, hc]
  simp [rootChars, hz]

/-- A plain file name (slash-free, non-empty, not `"."`) is its own
single component. -/
theorem pyParts_plain {name : String} (hs : '/' ∉ name.toList)
    (hdot : ¬ name.toList = ['.']) (hne : name.toList ≠ []) :
    pyParts name = [name.toList] := by
  have h1 : splitOnSlash name.data = [name.data] := splitOnSlash_no_slash hs
  have h2 : ¬ name.data = [] := hne
  have h3 : ¬ name.data = ['.'] := hdot
  simp [pyParts, h1, h2, h3]

/-- On a plain dot-free name, `with_suffix` literally appends the
extension. -/
theorem pyWithSuffix_plain (name ext : String) (hs : '/' ∉ name.toList)
    (hd : '.' ∉ name.toList) (hne : name.toList ≠ []) :
    pyWithSuffix name ext = some (name ++ ext) := by
  have hdot : ¬ name.toList = ['.'] := fun hh => hd (by rw [hh]; simp)
  have h2 : pyParts name = [name.toList] := pyParts_plain hs hdot hne
  have h3 : pySuffixLen name.toList = 0 :=
    pySuffixLen_of_none (lastDotIdx?_eq_none hd)
  simp only [pyWithSuffix, h2, h3, rootChars_no_slash hs, Nat.sub_zero,
    List.take_length, List.getLast?_singleton, List.dropLast_single,
    List.nil_append, joinParts, Option.some.injEq]
  rfl

/-! ### Python exceptions -/

/-- The exception classes raised by the embedded code.  `ValueError` is the
spec's ValidationError; `RuntimeError` covers the spec's StateError and
DeviceError; `OSError` models file-system failures at the delegated I/O
boundaries. -/
inductive PyErr where
  | valueError (msg : String)
  | runtimeError (msg : String)
  | osError (msg : String)
deriving DecidableEq, Repr

@[simp]
theorem except_bind_error {ε α β : Type} (e : ε) (f : α → Except ε β) :
    (Except.error e >>= f) = Except.error e := rfl

@[simp]
theorem except_bind_ok {ε α β : Type} (a : α) (f : α → Except ε β) :
    (Except.ok a >>= f : Except ε β) = f a := rfl

@[simp]
theorem except_map_error {ε α β : Type} (e : ε) (f : α → β) :
    (f <$> (Except.error e : Except ε α)) = Except.error e := rfl

@[simp]
theorem except_map_ok {ε α β : Type} (a : α) (f : α → β) :
    (f <$> (Except.ok a : Except ε α)) = Except.ok (f a) := rfl

/-- Test for a `ValueError` result (the spec's validation error). -/
def isValueError {α : Type} : Except PyErr α → Bool
  | .error (.valueError _) => true
  | _ => false

/-- Test for a `RuntimeError` result (the spec's state/device error). -/
def isRuntimeError {α : Type} : Except PyErr α → Bool
  | .error (.runtimeError _) => true
  | _ => false

/-! ### `src/generator.py` : ObjectGenerator -/

/-- Module constant `SUPPORTED_SHAPES` of `generator.py`. -/
def SUPPORTED_SHAPES : List String := ["sphere", "cube", "cylinder"]

/-- Module constant `SUPPORTED_FORMATS` of `generator.py`. -/
def SUPPORTED_FORMATS : List String := ["ply", "obj", "stl"]

/-- The tessellation calls `generate` delegates to Open3D, recorded with the
exact parameters the source passes. -/
inductive Geom where
  | sphere (radius : ℚ) (resolution : Int)
  | box (width height depth : ℚ)
  | cylinder (radius height : ℚ) (resolution : Int)
deriving DecidableEq, Repr

/-- A generated mesh: its geometry together with the uniform vertex color
painted by `_apply_color` (stored as the raw 0-255 triple). -/
structure Mesh where
  geom : Geom
  color : Int × Int × Int
deriving DecidableEq, Repr

/-- State of an `ObjectGenerator` instance: the validated constructor
parameters plus the `_mesh` field (None before `generate`). -/
structure ObjectGenerator where
  shape : String
  size : ℚ
  color : Int × Int × Int
  resolution : Int
  meshState : Option Mesh
deriving DecidableEq, Repr

/-- The check `all(0 <= c <= 255 for c in color)` of `ObjectGenerator.__init__`. -/
def colorInRange (c : Int × Int × Int) : Prop :=
  (0 ≤ c.1 ∧ c.1 ≤ 255) ∧ (0 ≤ c.2.1 ∧ c.2.1 ≤ 255) ∧ (0 ≤ c.2.2 ∧ c.2.2 ≤ 255)

instance : DecidablePred colorInRange := fun c => by
  unfold colorInRange; infer_instance

/-- `ObjectGenerator.__init__`: the four validation checks in source order,
then the initialized instance with `_mesh = None`. -/
def mkObjectGenerator (shape : String) (size : ℚ) (color : Int × Int × Int)
    (resolution : Int) : Except PyErr ObjectGenerator :=
  if shape ∉ SUPPORTED_SHAPES then
    .error (.valueError ("Unsupported shape."))
  else if size ≤ 0 then
    .error (.valueError ("Size must be positive."))
  else if ¬ colorInRange color then
    .error (.valueError ("Color values must be in [0, 255]."))
  else if resolution ≤ 0 then
    .error (.valueError ("Resolution must be positive."))
  else
    .ok { shape := shape, size := size, color := color,
          resolution := resolution, meshState := none }

/-- `ObjectGenerator.generate`: builds the Open3D primitive for the
configured shape, stores it in `_mesh`, and returns it.  The fall-through
branch embeds the `AttributeError` the source would hit on an unknown
shape (`self._mesh` stays `None`); it is unreachable after validation. -/
def generate (g : ObjectGenerator) : Except PyErr (Mesh × ObjectGenerator) :=
  if g.shape = "sphere" then
    let m : Mesh := { geom := .sphere g.size g.resolution, color := g.color }
    .ok (m, { g with meshState := some m })
  else if g.shape = "cube" then
    let m : Mesh := { geom := .box g.size g.size g.size, color := g.color }
    .ok (m, { g with meshState := some m })
  else if g.shape = "cylinder" then
    let m : Mesh := { geom := .cylinder (g.size / 2) g.size g.resolution,
                      color := g.color }
    .ok (m, { g with meshState := some m })
  else
    .error (.runtimeError ("NoneType object has no attribute."))

/-- `ObjectGenerator.export`: rejects an unsupported format first, then a
missing mesh, then writes to `Path(filepath).with_suffix("." + format)`. -/
def exportMesh (g : ObjectGenerator) (filepath fileFormat : String) :
    Except PyErr String :=
  if fileFormat ∉ SUPPORTED_FORMATS then
    .error (.valueError ("Unsupported format."))
  else if g.meshState = none then
    .error (.runtimeError ("No mesh generated. Call generate() first."))
  else
    match pyWithSuffix filepath ("." ++ fileFormat) with
    | none => .error (.valueError ("empty name"))
    | some outputPath => .ok outputPath

/-- Construct-then-generate pipeline, as exercised by the CLI and tests. -/
def generateObject (shape : String) (size : ℚ) (color : Int × Int × Int)
    (resolution : Int) : Except PyErr Mesh := do
  let g ← mkObjectGenerator shape size color resolution
  let p ← generate g
  pure p.1

/-- `ObjectGenerator.get_parameters`. -/
def getParametersGen (g : ObjectGenerator) : List (String × String) :=
  [("shape", g.shape), ("size", toString g.size),
   ("color", toString g.color.1 ++ "," ++ toString g.color.2.1 ++ ","
      ++ toString g.color.2.2),
   ("resolution", toString g.resolution)]

/-- A supported shape always generates a mesh. -/
theorem generate_ok_of_supported (g : ObjectGenerator)
    (h : g.shape ∈ SUPPORTED_SHAPES) :
    ∃ m, generate g = .ok (m, { g with meshState := some m }) := by
  simp only [SUPPORTED_SHAPES, List.mem_cons, List.not_mem_nil, or_false] at h
  rcases h with h | h | h <;> simp [generate, h]

/-- Sample generator before `generate` has run (`_mesh = None`). -/
def genFresh : ObjectGenerator := ⟨"sphere", 1, (255, 0, 0), 20, none⟩

/-- The mesh produced by `generate` on `genFresh`. -/
def meshSphere : Mesh := ⟨.sphere 1 20, (255, 0, 0)⟩

/-- Sample generator after `generate` has run. -/
def genReady : ObjectGenerator := ⟨"sphere", 1, (255, 0, 0), 20, some meshSphere⟩

/-- C3: generating a mesh through `ObjectGenerator` fails with a validation
error (`ValueError`) exactly when the shape is not one of
sphere/cube/cylinder, or size ≤ 0, or some color component is outside
[0, 255], or resolution ≤ 0; with all parameters in range a mesh is
produced without error. -/
theorem generator_validation_iff (shape : String) (size : ℚ)
    (color : Int × Int × Int) (resolution : Int) :
    (isValueError (generateObject shape size color resolution) = true ↔
      (shape ∉ SUPPORTED_SHAPES ∨ size ≤ 0 ∨ ¬ colorInRange color ∨
        resolution ≤ 0))
    ∧ (shape ∈ SUPPORTED_SHAPES → 0 < size → colorInRange color →
        0 < resolution →
        ∃ m, generateObject shape size color resolution = Except.ok m) := by
  by_cases h1 : shape ∈ SUPPORTED_SHAPES
  · by_cases h2 : size ≤ 0
    · simp [generateObject, mkObjectGenerator, isValueError, h1, h2,
        not_lt.mpr h2]
    · by_cases h3 : colorInRange color
      · by_cases h4 : resolution ≤ 0
        · simp [generateObject, mkObjectGenerator, isValueError, h1, h2, h3,
            h4, not_lt.mpr h4]
        · obtain ⟨m, hm⟩ := generate_ok_of_supported
            ⟨shape, size, color, resolution, none⟩ h1
          simp [generateObject, mkObjectGenerator, isValueError, h1, h2, h3,
            h4, hm]
      · simp [generateObject, mkObjectGenerator, isValueError, h1, h2, h3]
  · simp [generateObject, mkObjectGenerator, isValueError, h1]

/-- Witness for C3: the in-range default parameters generate a mesh. -/
theorem generator_validation_iff_witness :
    ("sphere" ∈ SUPPORTED_SHAPES ∧ colorInRange (255, 0, 0))
    ∧ ∃ m, generateObject "sphere" 1 (255, 0, 0) 20 = Except.ok m :=
  ⟨⟨by decide, by decide⟩,
    (generator_validation_iff "sphere" 1 (255, 0, 0) 20).2 (by decide)
      (by norm_num) (by decide) (by decide)⟩

/-- C4 counterexample: `export` called before `generate` with an unsupported
format raises the format `ValueError` (the format check comes first), not
the claimed state error (`RuntimeError`). -/
theorem export_before_generate_counterexample :
    exportMesh genFresh "test" "fbx" = .error (.valueError ("Unsupported format."))
    ∧ isRuntimeError (exportMesh genFresh "test" "fbx") = false :=
  ⟨rfl, rfl⟩

/-- C4 (amended): `export` fails with a validation error for any format
outside {ply, obj, stl}, this check preceding the state check; with a
supported format it fails with a state error before generation, and after
generation returns `str(Path(path).with_suffix("." + format))` — the
final path component's extension is replaced, or the extension appended
when that component has none — failing with a validation error when the
path's final name is empty (Python `with_suffix` raises `ValueError`
there). -/
theorem export_characterization (g : ObjectGenerator)
    (filepath fileFormat : String) :
    (fileFormat ∉ SUPPORTED_FORMATS →
      exportMesh g filepath fileFormat
        = .error (.valueError ("Unsupported format.")))
    ∧ (fileFormat ∈ SUPPORTED_FORMATS → g.meshState = none →
      exportMesh g filepath fileFormat
        = .error (.runtimeError ("No mesh generated. Call generate() first.")))
    ∧ (fileFormat ∈ SUPPORTED_FORMATS → ∀ m, g.meshState = some m →
      ∀ outputPath, pyWithSuffix filepath ("." ++ fileFormat) = some outputPath →
      exportMesh g filepath fileFormat = .ok outputPath)
    ∧ (fileFormat ∈ SUPPORTED_FORMATS → ∀ m, g.meshState = some m →
      pyWithSuffix filepath ("." ++ fileFormat) = none →
      exportMesh g filepath fileFormat = .error (.valueError ("empty name")))
    ∧ (∀ name : String, '/' ∉ name.toList → '.' ∉ name.toList →
      name.toList ≠ [] →
      pyWithSuffix name ("." ++ fileFormat)
        = some (name ++ "." ++ fileFormat)) := by
  refine ⟨fun h => ?_, fun h hm => ?_, fun h m hm p hp => ?_,
    fun h m hm hp => ?_, fun name hs hd hne => ?_⟩
  · simp [exportMesh, h]
  · simp [exportMesh, h, hm]
  · simp [exportMesh, h, hm, hp]
  · simp [exportMesh, h, hm, hp]
  · rw [pyWithSuffix_plain name ("." ++ fileFormat) hs hd hne,
      String.append_assoc]

/-- Witness for C4 (amended): after generation, exporting to ply returns
the path with `.ply` appended. -/
theorem export_characterization_witness :
    ("ply" ∈ SUPPORTED_FORMATS) ∧ exportMesh genReady "out" "ply" = .ok ("out.ply") := by
  refine ⟨by decide, ?_⟩
  exact (export_characterization genReady "out" "ply").2.2.1 (by decide)
    meshSphere rfl "out.ply" rfl

/-! ### `src/scanner.py` : CameraScanner

The camera device is an explicit environment: whether `cv2.VideoCapture`
opens, and what the i-th `cap.read()` of a session returns (`none` embeds
`not ret or frame is None`).  A frame is the list of its pixel values. -/

/-- State of a `CameraScanner` instance. -/
structure CameraScanner where
  cameraIndex : Int
  frameWidth : Int
  frameHeight : Int
  capturedFrames : List (List Nat)
deriving DecidableEq, Repr

/-- `CameraScanner.__init__`: validation checks in source order. -/
def mkCameraScanner (cameraIndex frameWidth frameHeight : Int) :
    Except PyErr CameraScanner :=
  if cameraIndex < 0 then
    .error (.valueError ("Camera index must be non-negative."))
  else if frameWidth ≤ 0 ∨ frameHeight ≤ 0 then
    .error (.valueError ("Frame dimensions must be positive."))
  else
    .ok ⟨cameraIndex, frameWidth, frameHeight, []⟩

/-- One camera session: device availability and per-read results. -/
structure CamEnv where
  isOpened : Bool
  readResult : Nat → Option (List Nat)

/-- `CameraScanner.capture_frame`: open, single read, append on success. -/
def captureFrame (s : CameraScanner) (env : CamEnv) :
    Except PyErr (List Nat × CameraScanner) :=
  if env.isOpened = false then
    .error (.runtimeError ("Cannot open camera."))
  else
    match env.readResult 0 with
    | none => .error (.runtimeError ("Failed to capture frame from camera."))
    | some f => .ok (f, { s with capturedFrames := s.capturedFrames ++ [f] })

/-- The `for i in range(num_frames)` loop of `capture_multiple`: a failed
read logs a warning and `continue`s; a successful read collects the frame. -/
def captureLoop (read : Nat → Option (List Nat)) : Nat → Nat → List (List Nat)
  | _, 0 => []
  | i, Nat.succ fuel =>
    match read i with
    | none => captureLoop read (i + 1) fuel
    | some f => f :: captureLoop read (i + 1) fuel

/-- `CameraScanner.capture_multiple`: count validation, device open check,
then the capture loop; collected frames are appended to the store. -/
def captureMultiple (s : CameraScanner) (numFrames : Int) (env : CamEnv) :
    Except PyErr (List (List Nat) × CameraScanner) :=
  if numFrames ≤ 0 then
    .error (.valueError ("Number of frames must be positive."))
  else if env.isOpened = false then
    .error (.runtimeError ("Cannot open camera."))
  else
    let frames := captureLoop env.readResult 0 numFrames.toNat
    .ok (frames, { s with capturedFrames := s.capturedFrames ++ frames })

/-- `CameraScanner.save_frame`: empty-frame validation (`None` or zero
size), then `Path(filepath).with_suffix(".png")`. -/
def saveFrame (frame : Option (List Nat)) (filepath : String) :
    Except PyErr String :=
  match frame with
  | none => .error (.valueError ("Cannot save an empty frame."))
  | some data =>
    if data.length = 0 then
      .error (.valueError ("Cannot save an empty frame."))
    else
      match pyWithSuffix filepath (".png") with
      | none => .error (.valueError ("empty name"))
      | some outputPath => .ok outputPath

/-- `CameraScanner.get_frame_count`. -/
def getFrameCount (s : CameraScanner) : Nat := s.capturedFrames.length

/-- The capture loop visits reads `i, i+1, ...` once each and keeps the
successful ones, in order. -/
theorem captureLoop_eq_range' (read : Nat → Option (List Nat)) :
    ∀ (n i : Nat), captureLoop read i n = (List.range' i n).filterMap read := by
  intro n
  induction n with
  | zero => intro i; simp [captureLoop]
  | succ n ih =>
    intro i
    rw [List.range'_succ, List.filterMap_cons]
    cases hr : read i with
    | none => simp [captureLoop, hr, ih (i + 1)]
    | some f => simp [captureLoop, hr, ih (i + 1)]

/-- Specialization to the loop as `capture_multiple` starts it. -/
theorem captureLoop_zero (read : Nat → Option (List Nat)) (n : Nat) :
    captureLoop read 0 n = (List.range n).filterMap read := by
  rw [captureLoop_eq_range', List.range_eq_range']

/-- The loop returns at most one frame per requested read. -/
theorem captureLoop_length_le (read : Nat → Option (List Nat)) (n i : Nat) :
    (captureLoop read i n).length ≤ n := by
  rw [captureLoop_eq_range']
  calc ((List.range' i n).filterMap read).length ≤ (List.range' i n).length :=
        List.length_filterMap_le read (List.range' i n)
    _ = n := by simp

/-- Scanner with the default constructor parameters and no stored frames. -/
def scanner0 : CameraScanner := ⟨0, 1280, 720, []⟩

/-- A session whose device opens but whose every read fails. -/
def envReadFail : CamEnv := ⟨true, fun _ => none⟩

/-- A session whose device opens and whose i-th read yields frame `[i]`. -/
def envAllReads : CamEnv := ⟨true, fun i => some [i]⟩

/-- Scanner state after two successful captures in `envAllReads`. -/
def scanner2 : CameraScanner := ⟨0, 1280, 720, [[0], [1]]⟩

/-- C2 counterexample: with the device open and the single requested read
failing, `capture_multiple(1)` returns the empty list instead of raising a
device error — the failed read is skipped, not an error. -/
theorem captureMultiple_read_fail_counterexample :
    captureMultiple scanner0 1 envReadFail = .ok ([], scanner0)
    ∧ isRuntimeError (captureMultiple scanner0 1 envReadFail) = false :=
  ⟨rfl, rfl⟩

/-- C2 (amended): for count > 0, `capture_multiple` fails with a device
error (`RuntimeError`) exactly when the camera cannot be opened; with the
device open it never fails: failed reads are skipped and it returns the
frames of the successful reads among the first `count`, appending them to
the store. -/
theorem captureMultiple_device_error (s : CameraScanner) (numFrames : Int)
    (env : CamEnv) (hn : 0 < numFrames) :
    (env.isOpened = false →
      captureMultiple s numFrames env
        = .error (.runtimeError ("Cannot open camera.")))
    ∧ (env.isOpened = true →
      captureMultiple s numFrames env
        = .ok ((List.range numFrames.toNat).filterMap env.readResult,
            { s with capturedFrames := s.capturedFrames
                ++ (List.range numFrames.toNat).filterMap env.readResult })) := by
  have hn' : ¬ numFrames ≤ 0 := not_le.mpr hn
  constructor <;> intro h <;> simp [captureMultiple, hn', h, captureLoop_zero]

/-- Witness for C2 (amended): a two-frame capture with a working device. -/
theorem captureMultiple_device_error_witness :
    (0 : Int) < 2
    ∧ captureMultiple scanner0 2 envAllReads = .ok ([[0], [1]], scanner2) := by
  refine ⟨by decide, ?_⟩
  have h := (captureMultiple_device_error scanner0 2 envAllReads (by decide)).2 rfl
  rw [h]
  rfl

/-- C9: a successful `capture_multiple(n)` returns at most `n` frames, the
store grows by exactly the returned frames (append-only), `capture_frame`
likewise appends its single frame, and `get_frame_count` always equals the
number of stored frames. -/
theorem capture_invariants (s : CameraScanner) (numFrames : Int)
    (env : CamEnv) (frames : List (List Nat)) (s2 : CameraScanner)
    (hn : 0 < numFrames)
    (h : captureMultiple s numFrames env = .ok (frames, s2)) :
    (frames.length : Int) ≤ numFrames
    ∧ s2.capturedFrames = s.capturedFrames ++ frames
    ∧ getFrameCount s2 = getFrameCount s + frames.length
    ∧ (∀ (t t2 : CameraScanner) (env2 : CamEnv) (f : List Nat),
        captureFrame t env2 = .ok (f, t2) →
        t2.capturedFrames = t.capturedFrames ++ [f])
    ∧ (∀ t : CameraScanner, getFrameCount t = t.capturedFrames.length) := by
  have hn' : ¬ numFrames ≤ 0 := not_le.mpr hn
  by_cases ho : env.isOpened = false
  · simp [captureMultiple, hn', ho] at h
  · simp only [captureMultiple, if_neg hn', if_neg ho, Except.ok.injEq,
      Prod.mk.injEq] at h
    obtain ⟨hf, hs⟩ := h
    have hlen : frames.length ≤ numFrames.toNat := by
      rw [← hf]; exact captureLoop_length_le env.readResult numFrames.toNat 0
    refine ⟨by omega, ?_, ?_, ?_, fun t => rfl⟩
    · rw [← hs]; simp [hf]
    · rw [← hs]; simp [getFrameCount, hf]
    · intro t t2 env2 f hcf
      by_cases ho2 : env2.isOpened = false
      · simp [captureFrame, ho2] at hcf
      · simp only [captureFrame, if_neg ho2] at hcf
        cases hr : env2.readResult 0 with
        | none => rw [hr] at hcf; exact absurd hcf (by simp)
        | some fr =>
          rw [hr] at hcf
          simp only [Except.ok.injEq, Prod.mk.injEq] at hcf
          obtain ⟨hfr, ht2⟩ := hcf
          rw [← ht2, hfr]

/-- Witness for C9: the two-frame capture of `envAllReads`. -/
theorem capture_invariants_witness :
    (0 : Int) < 2
    ∧ ((([[0], [1]] : List (List Nat)).length : Int) ≤ 2
      ∧ scanner2.capturedFrames = scanner0.capturedFrames ++ [[0], [1]]
      ∧ getFrameCount scanner2 = getFrameCount scanner0 + 2
      ∧ (∀ (t t2 : CameraScanner) (env2 : CamEnv) (f : List Nat),
          captureFrame t env2 = .ok (f, t2) →
          t2.capturedFrames = t.capturedFrames ++ [f])
      ∧ (∀ t : CameraScanner, getFrameCount t = t.capturedFrames.length)) :=
  ⟨by decide, capture_invariants scanner0 2 envAllReads [[0], [1]] scanner2
    (by decide) rfl⟩

/-- C7 counterexample: saving a non-empty frame to path `a.b` returns
`a.png` — `with_suffix` replaced the existing extension instead of
appending `.png`. -/
theorem saveFrame_counterexample :
    saveFrame (some [7]) "a.b" = .ok ("a.png")
    ∧ ("a.png" : String) ≠ "a.b.png" :=
  ⟨rfl, by decide⟩

/-- C7 (amended): `save_frame` fails with a validation error exactly when
the frame is empty (None or zero size) or the path's final name is empty
(Python `with_suffix` raises `ValueError` there); for a non-empty frame
and a path with a non-empty final name it returns
`str(Path(path).with_suffix(".png"))` — the final component's extension
replaced, or `.png` appended when that component has none. -/
theorem saveFrame_characterization (frame : Option (List Nat))
    (filepath : String) :
    (isValueError (saveFrame frame filepath) = true ↔
      (frame = none ∨ frame = some []
        ∨ pyWithSuffix filepath (".png") = none))
    ∧ (∀ data, frame = some data → data ≠ [] →
        ∀ outputPath, pyWithSuffix filepath (".png") = some outputPath →
        saveFrame frame filepath = .ok outputPath)
    ∧ (∀ name : String, '/' ∉ name.toList → '.' ∉ name.toList →
        name.toList ≠ [] →
        pyWithSuffix name (".png") = some (name ++ ".png")) := by
  refine ⟨?_, ?_, fun name hs hd hne => pyWithSuffix_plain name (".png") hs hd hne⟩
  · cases frame with
    | none => simp [saveFrame, isValueError]
    | some data =>
      by_cases hd : data.length = 0
      · simp [saveFrame, isValueError, hd, List.length_eq_zero.mp hd]
      · have hne : ¬ data = [] := by simpa [List.length_eq_zero] using hd
        cases h : pyWithSuffix filepath (".png") with
        | none => simp [saveFrame, isValueError, hd, h, hne]
        | some p => simp [saveFrame, isValueError, hd, h, hne]
  · intro data hdata hne outputPath hp
    have hd : ¬ data.length = 0 := by
      simpa [List.length_eq_zero] using hne
    simp [saveFrame, hdata, hd, hp]

/-- Witness for C7 (amended): a one-pixel frame saved to a dot-free path. -/
theorem saveFrame_characterization_witness :
    ([7] : List Nat) ≠ [] ∧ saveFrame (some [7]) "out" = .ok ("out.png") := by
  refine ⟨by decide, ?_⟩
  exact (saveFrame_characterization (some [7]) "out").2.1 [7] rfl (by decide)
    "out.png" rfl

/-! ### `src/renderer.py` : MeshRenderer -/

/-- State of a `MeshRenderer` instance: the validated constructor
parameters.  Camera vectors are embedded as rational triples. -/
structure MeshRenderer where
  width : Int
  height : Int
  cameraPosition : ℚ × ℚ × ℚ
  lookAt : ℚ × ℚ × ℚ
  upVector : ℚ × ℚ × ℚ
deriving DecidableEq, Repr

/-- `MeshRenderer.__init__`: rejects non-positive dimensions. -/
def mkMeshRenderer (width height : Int)
    (cameraPosition lookAt upVector : ℚ × ℚ × ℚ) :
    Except PyErr MeshRenderer :=
  if width ≤ 0 ∨ height ≤ 0 then
    .error (.valueError ("Width and height must be positive."))
  else
    .ok ⟨width, height, cameraPosition, lookAt, upVector⟩

/-- `MeshRenderer.render_to_image`: `output_path` is computed first as
`Path(filepath).with_suffix(".png")` (raising `ValueError` on an empty
final name); the offscreen rasterization is delegated to Open3D and the
returned value is `str(output_path)`. -/
def renderToImage (_r : MeshRenderer) (_mesh : Mesh) (filepath : String) :
    Except PyErr String :=
  match pyWithSuffix filepath (".png") with
  | none => .error (.valueError ("empty name"))
  | some outputPath => .ok outputPath

/-- Renderer with the default constructor parameters. -/
def renderer800 : MeshRenderer := ⟨800, 600, (2, 2, 2), (0, 0, 0), (0, 1, 0)⟩

/-- C8 counterexample: a validly constructed renderer returns `a.png` for
output path `a.b` — the existing extension is replaced, not appended to. -/
theorem renderToImage_counterexample :
    renderToImage renderer800 meshSphere "a.b" = .ok ("a.png")
    ∧ ("a.png" : String) ≠ "a.b.png" :=
  ⟨rfl, by decide⟩

/-- C8 (amended): construction with non-positive width or height is
rejected with a validation error and otherwise succeeds; `render_to_image`
returns `str(Path(path).with_suffix(".png"))` — the final path
component's extension replaced, or `.png` appended when that component
has none — and fails with a validation error when the path's final name
is empty (Python `with_suffix` raises `ValueError` there). -/
theorem renderToImage_characterization (width height : Int)
    (cameraPosition lookAt upVector : ℚ × ℚ × ℚ) :
    ((width ≤ 0 ∨ height ≤ 0) →
      mkMeshRenderer width height cameraPosition lookAt upVector
        = .error (.valueError ("Width and height must be positive.")))
    ∧ (0 < width → 0 < height →
      mkMeshRenderer width height cameraPosition lookAt upVector
        = .ok ⟨width, height, cameraPosition, lookAt, upVector⟩)
    ∧ (∀ (r : MeshRenderer) (m : Mesh) (filepath outputPath : String),
        pyWithSuffix filepath (".png") = some outputPath →
        renderToImage r m filepath = .ok outputPath)
    ∧ (∀ (r : MeshRenderer) (m : Mesh) (filepath : String),
        pyWithSuffix filepath (".png") = none →
        renderToImage r m filepath = .error (.valueError ("empty name")))
    ∧ (∀ name : String, '/' ∉ name.toList → '.' ∉ name.toList →
        name.toList ≠ [] →
        pyWithSuffix name (".png") = some (name ++ ".png")) := by
  refine ⟨fun h => ?_, fun hw hh => ?_, fun r m filepath p hp => ?_,
    fun r m filepath hp => ?_,
    fun name hs hd hne => pyWithSuffix_plain name (".png") hs hd hne⟩
  · simp [mkMeshRenderer, h]
  · simp [mkMeshRenderer, not_le.mpr hw, not_le.mpr hh]
  · simp [renderToImage, hp]
  · simp [renderToImage, hp]

/-- Witness for C8 (amended): the default 800 by 600 construction, then a
render to a dot-free path. -/
theorem renderToImage_characterization_witness :
    ((0 : Int) < 800
      ∧ mkMeshRenderer 800 600 (2, 2, 2) (0, 0, 0) (0, 1, 0)
          = .ok renderer800)
    ∧ renderToImage renderer800 meshSphere "frame" = .ok ("frame.png") :=
  ⟨⟨by decide,
    (renderToImage_characterization 800 600 (2, 2, 2) (0, 0, 0) (0, 1, 0)).2.1
      (by decide) (by decide)⟩,
    (renderToImage_characterization 800 600 (2, 2, 2) (0, 0, 0) (0, 1, 0)).2.2.1
      renderer800 meshSphere "frame" "frame.png" rfl⟩

/-! ### `src/provenance.py` : ProvenanceTracker

The repository imports `ProvenanceTracker` from `src.provenance` in
`main.py`, the tests and the example, but the file `src/provenance.py`
itself is absent from the sources.  The component is therefore modelled
from the specification (spec §3-§4): an ordered record store keyed by
(kind, id) with last-write-wins upsert semantics, an append-only relation
list, and two pure serializers applying one fixed namespace prefix. -/

/-- Modelled from the spec: the three record kinds of the missing
`provenance.py` data model (`Agent`, `Activity`, `Entity`). -/
inductive RKind where
  | agent
  | activity
  | entity
deriving DecidableEq, Repr

/-- Modelled from the spec: one record of the missing `provenance.py` —
its kind, its identifier, and its open string-keyed attribute map
(name/version for agents, label+parameters for activities,
kind+location+attributes for entities). -/
structure PRecord where
  kind : RKind
  rid : String
  fields : List (String × String)
deriving DecidableEq, Repr

/-- The (kind, id) key under which a record is unique in a graph. -/
def recKey (r : PRecord) : RKind × String := (r.kind, r.rid)

/-- Modelled from the spec: the three relation forms of the missing
`provenance.py` (WasGeneratedBy, WasAttributedTo, WasDerivedFrom);
a relation stores identifiers only. -/
inductive PRelation where
  | wasGeneratedBy (entityId activityId : String)
  | wasAttributedTo (entityId agentId : String)
  | wasDerivedFrom (derivedId sourceId : String)
deriving DecidableEq, Repr

/-- Modelled from the spec: the state of the missing `provenance.py`
tracker — a namespace label, the ordered record store, and the ordered
relation list. -/
structure ProvenanceTracker where
  nsLabel : String
  records : List PRecord
  relations : List PRelation
deriving DecidableEq, Repr

/-- Modelled from the spec: the default namespace label of
`ProvenanceTracker()`. -/
def defaultNamespace : String := "provenance"

/-- Modelled from the spec: `ProvenanceTracker(namespace_label)` — an
empty graph; never fails. -/
def newTracker (nsLabel : String) : ProvenanceTracker := ⟨nsLabel, [], []⟩

/-- Modelled from the spec: duplicate-(kind, id) policy — the spec fixes
last-write overwrites, so an insert replaces the existing record with the
same key in place, or appends when the key is new. -/
def upsertRecord : List PRecord → PRecord → List PRecord
  | [], r => [r]
  | x :: xs, r =>
    if recKey x = recKey r then r :: xs else x :: upsertRecord xs r

/-- Modelled from the spec: `record_agent(id, name, version)` (signature
as used by `main.py` and the tests); attributes absorb name and version. -/
def recordAgent (t : ProvenanceTracker) (agentId name version : String) :
    ProvenanceTracker :=
  let r : PRecord := ⟨.agent, agentId, [("name", name), ("version", version)]⟩
  { t with records := upsertRecord t.records r }

/-- Modelled from the spec: `record_activity(id, label, parameters)`. -/
def recordActivity (t : ProvenanceTracker) (activityId label : String)
    (params : List (String × String)) : ProvenanceTracker :=
  let r : PRecord := ⟨.activity, activityId, ("label", label) :: params⟩
  { t with records := upsertRecord t.records r }

/-- Modelled from the spec: `record_entity(id, kind, location, attributes)`. -/
def recordEntity (t : ProvenanceTracker) (entityId entityKind location : String)
    (attrs : List (String × String)) : ProvenanceTracker :=
  let r : PRecord :=
    ⟨.entity, entityId, ("kind", entityKind) :: ("location", location) :: attrs⟩
  { t with records := upsertRecord t.records r }

/-- Modelled from the spec: `record_generation(entity_id, activity_id)`. -/
def recordGeneration (t : ProvenanceTracker) (entityId activityId : String) :
    ProvenanceTracker :=
  { t with relations := t.relations ++ [.wasGeneratedBy entityId activityId] }

/-- Modelled from the spec: `record_attribution(entity_id, agent_id)`. -/
def recordAttribution (t : ProvenanceTracker) (entityId agentId : String) :
    ProvenanceTracker :=
  { t with relations := t.relations ++ [.wasAttributedTo entityId agentId] }

/-- Modelled from the spec: `record_derivation(derived_id, source_id)`. -/
def recordDerivation (t : ProvenanceTracker) (derivedId sourceId : String) :
    ProvenanceTracker :=
  { t with relations := t.relations ++ [.wasDerivedFrom derivedId sourceId] }

/-- Modelled from the spec: `get_records()` — every record and relation of
the graph in insertion order. -/
def getRecords (t : ProvenanceTracker) : List (PRecord ⊕ PRelation) :=
  t.records.map Sum.inl ++ t.relations.map Sum.inr

/-- One call to one of the three record operations, for quantifying over
call sequences. -/
inductive RecordOp where
  | agent (agentId name version : String)
  | activity (activityId label : String) (params : List (String × String))
  | entity (entityId entityKind location : String)
      (attrs : List (String × String))
deriving DecidableEq, Repr

/-- The (kind, id) key a record operation writes. -/
def opKey : RecordOp → RKind × String
  | .agent i _ _ => (.agent, i)
  | .activity i _ _ => (.activity, i)
  | .entity i _ _ _ => (.entity, i)

/-- The record a record operation stores. -/
def opRecord : RecordOp → PRecord
  | .agent i n v => ⟨.agent, i, [("name", n), ("version", v)]⟩
  | .activity i l p => ⟨.activity, i, ("label", l) :: p⟩
  | .entity i k loc a => ⟨.entity, i, ("kind", k) :: ("location", loc) :: a⟩

/-- Dispatch of one record operation on the tracker. -/
def applyRecordOp (t : ProvenanceTracker) : RecordOp → ProvenanceTracker
  | .agent i n v => recordAgent t i n v
  | .activity i l p => recordActivity t i l p
  | .entity i k loc a => recordEntity t i k loc a

/-- A whole sequence of record calls. -/
def applyOps (t : ProvenanceTracker) (ops : List RecordOp) :
    ProvenanceTracker :=
  ops.foldl applyRecordOp t

/-- The record-store part of a call sequence. -/
def applyToRecords (rs : List PRecord) (ops : List RecordOp) : List PRecord :=
  ops.foldl (fun acc op => upsertRecord acc (opRecord op)) rs

/-- Lookup of the unique record stored under a key. -/
def findRecord : List PRecord → (RKind × String) → Option PRecord
  | [], _ => none
  | r :: rs, k => if recKey r = k then some r else findRecord rs k

/-- The record written by the latest call of a sequence touching a key. -/
def lastWrite : List RecordOp → (RKind × String) → Option PRecord
  | [], _ => none
  | op :: ops, k =>
    match lastWrite ops k with
    | some r => some r
    | none => if opKey op = k then some (opRecord op) else none

theorem recKey_opRecord (op : RecordOp) : recKey (opRecord op) = opKey op := by
  cases op <;> rfl

theorem applyRecordOp_records (t : ProvenanceTracker) (op : RecordOp) :
    (applyRecordOp t op).records = upsertRecord t.records (opRecord op) := by
  cases op <;> rfl

theorem applyRecordOp_relations (t : ProvenanceTracker) (op : RecordOp) :
    (applyRecordOp t op).relations = t.relations := by
  cases op <;> rfl

theorem applyOps_records : ∀ (ops : List RecordOp) (t : ProvenanceTracker),
    (applyOps t ops).records = applyToRecords t.records ops := by
  intro ops
  induction ops with
  | nil => intro t; rfl
  | cons op ops ih =>
    intro t
    show (applyOps (applyRecordOp t op) ops).records = _
    rw [ih, applyRecordOp_records]
    rfl

theorem applyOps_relations : ∀ (ops : List RecordOp) (t : ProvenanceTracker),
    (applyOps t ops).relations = t.relations := by
  intro ops
  induction ops with
  | nil => intro t; rfl
  | cons op ops ih =>
    intro t
    show (applyOps (applyRecordOp t op) ops).relations = _
    rw [ih, applyRecordOp_relations]

/-- Upserting a record makes it the one found under its key. -/
theorem findRecord_upsert_self (rs : List PRecord) (r : PRecord) :
    findRecord (upsertRecord rs r) (recKey r) = some r := by
  induction rs with
  | nil => simp [upsertRecord, findRecord]
  | cons x xs ih =>
    by_cases h : recKey x = recKey r
    · simp [upsertRecord, h, findRecord]
    · simp [upsertRecord, h, findRecord, ih]

/-- Upserting a record leaves every other key's lookup unchanged. -/
theorem findRecord_upsert_ne (rs : List PRecord) (r : PRecord)
    (k : RKind × String) (h : k ≠ recKey r) :
    findRecord (upsertRecord rs r) k = findRecord rs k := by
  have hrk : ¬ recKey r = k := fun hh => h hh.symm
  induction rs with
  | nil => simp [upsertRecord, findRecord, hrk]
  | cons x xs ih =>
    by_cases hx : recKey x = recKey r
    · have hxk : ¬ recKey x = k := by rw [hx]; exact hrk
      simp [upsertRecord, hx, findRecord, hrk, hxk]
    · by_cases hxk : recKey x = k
      · simp [upsertRecord, hx, findRecord, hxk, h]
      · simp [upsertRecord, hx, findRecord, hxk, ih]

/-- The keys after an upsert: unchanged when the key was present, the key
appended when it was new. -/
theorem map_recKey_upsert (rs : List PRecord) (r : PRecord) :
    (upsertRecord rs r).map recKey =
      if recKey r ∈ rs.map recKey then rs.map recKey
      else rs.map recKey ++ [recKey r] := by
  induction rs with
  | nil => simp [upsertRecord]
  | cons x xs ih =>
    by_cases h : recKey x = recKey r
    · simp [upsertRecord, h]
    · have hsym : recKey r ≠ recKey x := fun hh => h hh.symm
      simp only [upsertRecord, if_neg h, List.map_cons, ih, List.mem_cons,
        hsym, false_or]
      split_ifs <;> simp

/-- Upserts preserve key uniqueness. -/
theorem nodup_keys_upsert (rs : List PRecord) (r : PRecord)
    (h : (rs.map recKey).Nodup) : ((upsertRecord rs r).map recKey).Nodup := by
  rw [map_recKey_upsert]
  split_ifs with hmem
  · exact h
  · simp [List.nodup_append, h, hmem]

theorem nodup_applyToRecords : ∀ (ops : List RecordOp) (rs : List PRecord),
    (rs.map recKey).Nodup → ((applyToRecords rs ops).map recKey).Nodup := by
  intro ops
  induction ops with
  | nil => intro rs h; exact h
  | cons op ops ih =>
    intro rs h
    exact ih (upsertRecord rs (opRecord op)) (nodup_keys_upsert rs (opRecord op) h)

/-- After a call sequence, the store's lookup is the sequence's last write
when the key was touched, and the prior store's lookup otherwise. -/
theorem findRecord_applyToRecords :
    ∀ (ops : List RecordOp) (rs : List PRecord) (k : RKind × String),
    findRecord (applyToRecords rs ops) k =
      match lastWrite ops k with
      | some r => some r
      | none => findRecord rs k := by
  intro ops
  induction ops with
  | nil => intro rs k; rfl
  | cons op ops ih =>
    intro rs k
    have hstep : applyToRecords rs (op :: ops)
        = applyToRecords (upsertRecord rs (opRecord op)) ops := rfl
    rw [hstep, ih]
    cases hlast : lastWrite ops k with
    | some r => simp [lastWrite, hlast]
    | none =>
      simp only [lastWrite, hlast]
      by_cases hk : opKey op = k
      · rw [if_pos hk, ← hk, ← recKey_opRecord op]
        exact findRecord_upsert_self rs (opRecord op)
      · rw [if_neg hk]
        exact findRecord_upsert_ne rs (opRecord op) k
          (fun hh => hk ((recKey_opRecord op ▸ hh).symm))

/-- C1: after any sequence of record_agent/record_activity/record_entity
calls, the graph holds at most one record per distinct (kind, id); looking
a key up yields exactly the record of the latest call writing that key
(last-write-wins), `get_records` consists of exactly those records (no
relations were added), and in the concrete two-`record_entity` scenario
only the second location survives. -/
theorem tracker_last_write_wins :
    (∀ (ns : String) (ops : List RecordOp),
      (((applyOps (newTracker ns) ops).records.map recKey).Nodup)
      ∧ (∀ k, findRecord (applyOps (newTracker ns) ops).records k
          = lastWrite ops k)
      ∧ getRecords (applyOps (newTracker ns) ops)
          = (applyOps (newTracker ns) ops).records.map Sum.inl)
    ∧ (recordEntity (recordEntity (newTracker "Test") "m" "3DModel"
        "/tmp/a.ply" []) "m" "3DModel" "/tmp/b.ply" []).records
      = [⟨RKind.entity, "m",
          [("kind", "3DModel"), ("location", "/tmp/b.ply")]⟩] := by
  refine ⟨fun ns ops => ⟨?_, fun k => ?_, ?_⟩, rfl⟩
  · rw [applyOps_records]
    exact nodup_applyToRecords ops (newTracker ns).records (by simp [newTracker])
  · rw [applyOps_records, findRecord_applyToRecords]
    cases lastWrite ops k <;> rfl
  · simp [getRecords, applyOps_relations, newTracker]

/-- Modelled from the spec: the single implicit namespace prefix applied
uniformly to every identifier at serialization time. -/
def qualifiedId (t : ProvenanceTracker) (i : String) : String :=
  t.nsLabel ++ ":" ++ i

/-- Modelled from the spec: the JSON serialization shape of the missing
`provenance.py` — a mapping from record-kind group to a mapping from
qualified id to attributes, plus a list for relations. -/
structure JsonProvDoc where
  agentBlock : List (String × List (String × String))
  activityBlock : List (String × List (String × String))
  entityBlock : List (String × List (String × String))
  relationBlock : List PRelation
deriving DecidableEq, Repr

/-- The PROV-XML element name of a record kind. -/
def kindTag : RKind → String
  | .agent => "prov:agent"
  | .activity => "prov:activity"
  | .entity => "prov:entity"

/-- One serialized XML element: tag, qualified identifier, attributes. -/
structure XmlElem where
  tag : String
  ident : String
  attrs : List (String × String)
deriving DecidableEq, Repr

/-- The XML element of a record. -/
def recordElem (t : ProvenanceTracker) (r : PRecord) : XmlElem :=
  ⟨kindTag r.kind, qualifiedId t r.rid, r.fields⟩

/-- The XML element of a relation (endpoint identifiers as attributes). -/
def relationElem (t : ProvenanceTracker) : PRelation → XmlElem
  | .wasGeneratedBy e a =>
    ⟨"prov:wasGeneratedBy", "",
      [("prov:entity", qualifiedId t e), ("prov:activity", qualifiedId t a)]⟩
  | .wasAttributedTo e ag =>
    ⟨"prov:wasAttributedTo", "",
      [("prov:entity", qualifiedId t e), ("prov:agent", qualifiedId t ag)]⟩
  | .wasDerivedFrom d s =>
    ⟨"prov:wasDerivedFrom", "",
      [("prov:generatedEntity", qualifiedId t d),
       ("prov:usedEntity", qualifiedId t s)]⟩

/-- Modelled from the spec: the JSON document of `export_json`, grouping
the records by kind under qualified identifiers. -/
def exportJsonDoc (t : ProvenanceTracker) : JsonProvDoc :=
  { agentBlock := (t.records.filter (fun r => decide (r.kind = RKind.agent))).map
      (fun r => (qualifiedId t r.rid, r.fields))
  , activityBlock := (t.records.filter (fun r => decide (r.kind = RKind.activity))).map
      (fun r => (qualifiedId t r.rid, r.fields))
  , entityBlock := (t.records.filter (fun r => decide (r.kind = RKind.entity))).map
      (fun r => (qualifiedId t r.rid, r.fields))
  , relationBlock := t.relations }

/-- Modelled from the spec: the PROV-XML document of `export_xml`, one
element per record and relation in insertion order. -/
def exportXmlDoc (t : ProvenanceTracker) : List XmlElem :=
  t.records.map (recordElem t) ++ t.relations.map (relationElem t)

/-- Modelled from the spec: `export_json(path)` — serializes the graph
without mutating it and writes to `path + ".json"`; returns the unchanged
tracker, the written path, and the document. -/
def exportJson (t : ProvenanceTracker) (path : String) :
    ProvenanceTracker × String × JsonProvDoc :=
  (t, path ++ ".json", exportJsonDoc t)

/-- Modelled from the spec: `export_xml(path)` — serializes the same graph
to PROV-XML, writing to `path + ".xml"`, same semantics. -/
def exportXml (t : ProvenanceTracker) (path : String) :
    ProvenanceTracker × String × List XmlElem :=
  (t, path ++ ".xml", exportXmlDoc t)

/-- Identifiers of the XML elements carrying a given tag. -/
def xmlIds (doc : List XmlElem) (tag : String) : List String :=
  (doc.filter (fun e => decide ( e.tag = tag))).map XmlElem.ident

theorem kindTag_inj {k1 k2 : RKind} (h : kindTag k1 = kindTag k2) :
    k1 = k2 := by
  cases k1 <;> cases k2 <;> simp_all [kindTag]

theorem relationElem_tag_ne (t : ProvenanceTracker) (k : RKind)
    (rel : PRelation) : (relationElem t rel).tag ≠ kindTag k := by
  cases rel <;> cases k <;> simp [relationElem, kindTag]

/-- The XML identifiers under a kind's tag are exactly the qualified ids
of that kind's records, in order. -/
theorem xmlIds_exportXmlDoc (t : ProvenanceTracker) (k : RKind) :
    xmlIds (exportXmlDoc t) (kindTag k)
      = (t.records.filter (fun r => decide (r.kind = k))).map
          (fun r => qualifiedId t r.rid) := by
  unfold exportXmlDoc xmlIds
  rw [List.filter_append, List.map_append]
  have hrel : (t.relations.map (relationElem t)).filter
      (fun e => decide ( e.tag = kindTag k)) = [] := by
    rw [List.filter_eq_nil_iff]
    intro e he
    obtain ⟨rel, _, rfl⟩ := List.mem_map.mp he
    simpa using relationElem_tag_ne t k rel
  rw [hrel, List.map_nil, List.append_nil]
  have key : ∀ rs : List PRecord,
      ((rs.map (recordElem t)).filter
        (fun e => decide ( e.tag = kindTag k))).map XmlElem.ident
      = (rs.filter (fun r => decide (r.kind = k))).map
          (fun r => qualifiedId t r.rid) := by
    intro rs
    induction rs with
    | nil => rfl
    | cons r rs ih =>
      by_cases hk : r.kind = k
      · simp [recordElem, List.filter_cons, hk, ih]
      · have htag : ¬ kindTag r.kind = kindTag k := fun hh => hk (kindTag_inj hh)
        simp [recordElem, List.filter_cons, htag, hk, ih]
  exact key t.records

/-- C6: `export_json` followed by `export_xml` on the same unmodified graph
both produce their documents without mutating the tracker, write to the
`.json` and `.xml` paths, and the two documents carry the same
agent/activity/entity identifier sequences. -/
theorem export_cross_format_consistency (t : ProvenanceTracker)
    (path1 path2 : String) :
    (exportJson t path1).1 = t
    ∧ (exportXml t path2).1 = t
    ∧ (exportJson t path1).2.1 = path1 ++ ".json"
    ∧ (exportXml t path2).2.1 = path2 ++ ".xml"
    ∧ (exportJsonDoc t).agentBlock.map Prod.fst
        = xmlIds (exportXmlDoc t) (kindTag RKind.agent)
    ∧ (exportJsonDoc t).activityBlock.map Prod.fst
        = xmlIds (exportXmlDoc t) (kindTag RKind.activity)
    ∧ (exportJsonDoc t).entityBlock.map Prod.fst
        = xmlIds (exportXmlDoc t) (kindTag RKind.entity) := by
  refine ⟨rfl, rfl, rfl, rfl, ?_, ?_, ?_⟩ <;>
    rw [xmlIds_exportXmlDoc] <;>
    simp [exportJsonDoc, List.map_map, Function.comp]

/-! ### Aliasing model for `get_captured_frames`

`get_captured_frames` returns `list(self._captured_frames)` — a fresh copy
of the internal list, not a reference to it.  Python list aliasing is
embedded with an explicit heap: a heap is a store of list cells addressed
by index, the scanner's `_captured_frames` lives in one cell, and
`list(...)` allocates a new cell holding the same contents.  In-place
mutation of the Python list returned to the caller is `mutateRef` on the
returned cell. -/

/-- Heap of Python list-of-frames cells plus the cell the scanner's
`_captured_frames` attribute points to. -/
structure ScannerHeap where
  cells : List (List (List Nat))
  scannerRef : Nat
deriving DecidableEq, Repr

/-- Dereference a cell (contents of the Python list object). -/
def readRef (h : ScannerHeap) (r : Nat) : List (List Nat) :=
  (h.cells[r]?).getD []

/-- `CameraScanner.get_captured_frames`: `return list(self._captured_frames)`
allocates a fresh cell with a copy of the stored frames and returns its
reference. -/
def getCapturedFrames (h : ScannerHeap) : ScannerHeap × Nat :=
  ({ h with cells := h.cells ++ [readRef h h.scannerRef] }, h.cells.length)

/-- Caller-side in-place mutation of the Python list behind a reference. -/
def mutateRef (h : ScannerHeap) (r : Nat)
    (f : List (List Nat) → List (List Nat)) : ScannerHeap :=
  { h with cells := h.cells.set r (f (readRef h r)) }

/-- `CameraScanner.get_frame_count` over the heap model. -/
def frameCountRef (h : ScannerHeap) : Nat := (readRef h h.scannerRef).length

/-- The cell returned by `get_captured_frames` holds a copy of the
scanner's stored frames. -/
theorem readRef_getCapturedFrames (h : ScannerHeap) :
    readRef (getCapturedFrames h).1 (getCapturedFrames h).2
      = readRef h h.scannerRef := by
  simp [getCapturedFrames, readRef, List.getElem?_concat_length]

/-- C10: `get_captured_frames` returns a fresh copy — a reference distinct
from the scanner's own cell, with equal contents; any in-place mutation of
the returned list leaves the scanner's stored frames, and hence
`get_frame_count` and later `get_captured_frames` results, unchanged. -/
theorem getCapturedFrames_fresh_copy (h : ScannerHeap)
    (f : List (List Nat) → List (List Nat))
    (hwf : h.scannerRef < h.cells.length) :
    (getCapturedFrames h).2 ≠ h.scannerRef
    ∧ readRef (getCapturedFrames h).1 (getCapturedFrames h).2
        = readRef h h.scannerRef
    ∧ readRef (mutateRef (getCapturedFrames h).1 (getCapturedFrames h).2 f)
        h.scannerRef = readRef h h.scannerRef
    ∧ frameCountRef (mutateRef (getCapturedFrames h).1
        (getCapturedFrames h).2 f) = frameCountRef h
    ∧ readRef (getCapturedFrames (mutateRef (getCapturedFrames h).1
        (getCapturedFrames h).2 f)).1
        ((getCapturedFrames (mutateRef (getCapturedFrames h).1
          (getCapturedFrames h).2 f)).2)
        = readRef h h.scannerRef := by
  have hne : h.cells.length ≠ h.scannerRef := ne_of_gt hwf
  have hmut : readRef (mutateRef (getCapturedFrames h).1
      (getCapturedFrames h).2 f) h.scannerRef = readRef h h.scannerRef := by
    simp only [getCapturedFrames, mutateRef, readRef]
    rw [List.getElem?_set_ne hne, List.getElem?_append_left hwf]
  refine ⟨hne, readRef_getCapturedFrames h, hmut, ?_, ?_⟩
  · unfold frameCountRef
    rw [show (mutateRef (getCapturedFrames h).1 (getCapturedFrames h).2
      f).scannerRef = h.scannerRef from rfl]
    rw [hmut]
  · rw [readRef_getCapturedFrames]
    rw [show (mutateRef (getCapturedFrames h).1 (getCapturedFrames h).2
      f).scannerRef = h.scannerRef from rfl]
    exact hmut

/-- Concrete heap: one scanner cell holding the single frame `[1]`. -/
def heap0 : ScannerHeap := ⟨[[[1]]], 0⟩

/-- A caller mutation that empties the returned list in place. -/
def clearList : List (List Nat) → List (List Nat) := fun _ => []

/-- Witness for C10: the one-frame heap, with the caller clearing the
returned copy. -/
theorem getCapturedFrames_fresh_copy_witness :
    heap0.scannerRef < heap0.cells.length
    ∧ ((getCapturedFrames heap0).2 ≠ heap0.scannerRef
      ∧ readRef (getCapturedFrames heap0).1 (getCapturedFrames heap0).2
          = readRef heap0 heap0.scannerRef
      ∧ readRef (mutateRef (getCapturedFrames heap0).1
          (getCapturedFrames heap0).2 clearList) heap0.scannerRef
          = readRef heap0 heap0.scannerRef
      ∧ frameCountRef (mutateRef (getCapturedFrames heap0).1
          (getCapturedFrames heap0).2 clearList) = frameCountRef heap0
      ∧ readRef (getCapturedFrames (mutateRef (getCapturedFrames heap0).1
          (getCapturedFrames heap0).2 clearList)).1
          ((getCapturedFrames (mutateRef (getCapturedFrames heap0).1
            (getCapturedFrames heap0).2 clearList)).2)
          = readRef heap0 heap0.scannerRef) :=
  ⟨by decide, getCapturedFrames_fresh_copy heap0 clearList (by decide)⟩

/-! ### `src/main.py` : run_generate / run_scan

Both subcommand drivers wrap their whole body in `try: ... except
Exception as exc: logger.error(...); print(f"Error: {exc}", file=sys.stderr);
return 1`.  The bodies are embedded as `Except`-valued pipelines over the
component models above, with the delegated file-system and device effects
supplied by an environment; the drivers produce an exit code plus the
stdout/stderr lines. -/

/-- `src.__version__` as recorded in the provenance agent. -/
def projectVersion : String := "1.0.0"

/-- A delegated side effect that can fail (mkdir, file write, render). -/
def check (ok : Bool) (e : PyErr) : Except PyErr Unit :=
  if ok then .ok () else .error e

/-- Parsed arguments of the `generate` subcommand. -/
structure GenArgs where
  shape : String
  color : Int × Int × Int
  size : ℚ
  resolution : Int
  fileFormat : String
  outputDir : String
  renderWidth : Int
  renderHeight : Int
  noRender : Bool

/-- File-system/render outcomes during a `generate` run. -/
structure GenEnv where
  mkdirOk : Bool
  modelWriteOk : Bool
  renderOk : Bool
  provWriteOk : Bool

/-- Parsed arguments of the `scan` subcommand. -/
structure ScanArgs where
  cameraIndex : Int
  numFrames : Int
  frameWidth : Int
  frameHeight : Int
  delayMs : Int
  outputDir : String
  pfx : String

/-- File-system/camera outcomes during a `scan` run. -/
structure ScanEnv where
  mkdirOk : Bool
  cam : CamEnv
  provWriteOk : Bool

/-- Outcome of a CLI subcommand: exit code and printed lines. -/
structure CliResult where
  exitCode : Int
  stdoutLines : List String
  stderrLines : List String
deriving DecidableEq, Repr

/-- The `str(exc)` of an embedded exception. -/
def errMessage : PyErr → String
  | .valueError m => m
  | .runtimeError m => m
  | .osError m => m

/-- Python `"%04d" % n` used by `save_all_frames` file names. -/
def padZero4 (n : Nat) : String :=
  let s := toString n
  String.mk (List.replicate (4 - s.length) ('0')) ++ s

/-- `CameraScanner.get_parameters`. -/
def getParametersScan (s : CameraScanner) : List (String × String) :=
  [("camera_index", toString s.cameraIndex),
   ("frame_width", toString s.frameWidth),
   ("frame_height", toString s.frameHeight),
   ("frames_captured", toString s.capturedFrames.length)]

/-- `CameraScanner.save_all_frames`: fails when no frames are stored,
otherwise saves each stored frame under `prefix_%04d`. -/
def saveAllFrames (s : CameraScanner) (outputDir pfx : String) :
    Except PyErr (List String) :=
  if s.capturedFrames.isEmpty then
    .error (.runtimeError ("No frames captured. Call capture_frame() first."))
  else
    s.capturedFrames.enum.mapM
      (fun p => saveFrame (some p.2)
        (outputDir ++ "/" ++ pfx ++ "_" ++ padZero4 p.1))

/-- The `try` body of `run_generate`: mkdir, construct and generate,
export the model, record provenance, optionally render and record the
image, export the provenance JSON, and emit the success lines. -/
def runGenerateBody (a : GenArgs) (env : GenEnv) : Except PyErr (List String) := do
  let _ ← check env.mkdirOk (.osError ("cannot create output directory"))
  let baseName := a.shape ++ "_" ++ toString a.size
  let g ← mkObjectGenerator a.shape a.size a.color a.resolution
  let p ← generate g
  let modelPath ← exportMesh p.2 (a.outputDir ++ "/" ++ baseName) a.fileFormat
  let _ ← check env.modelWriteOk (.osError ("cannot write model file"))
  let t0 := newTracker defaultNamespace
  let t1 := recordAgent t0 "software" "3DProvenance" projectVersion
  let t2 := recordActivity t1 "generation"
    ("Generate " ++ a.shape ++ " 3D object") (getParametersGen p.2)
  let t3 := recordEntity t2 "model_3d" "3DModel" modelPath
    [("format", a.fileFormat)]
  let t4 := recordGeneration t3 "model_3d" "generation"
  let t5 := recordAttribution t4 "model_3d" "software"
  let r ← (if a.noRender then pure (t5, ([] : List String)) else do
    let rend ← mkMeshRenderer a.renderWidth a.renderHeight (2, 2, 2)
      (0, 0, 0) (0, 1, 0)
    let imagePath ← renderToImage rend p.1 (a.outputDir ++ "/" ++ baseName)
    let _ ← check env.renderOk (.osError ("offscreen render failed"))
    let t6 := recordEntity t5 "rendered_image" "RenderedImage" imagePath
      [("width", toString a.renderWidth), ("height", toString a.renderHeight)]
    let t7 := recordGeneration t6 "rendered_image" "generation"
    let t8 := recordAttribution t7 "rendered_image" "software"
    let t9 := recordDerivation t8 "rendered_image" "model_3d"
    pure (t9, ["  Image:    " ++ imagePath]))
  let _ ← check env.provWriteOk (.osError ("cannot write provenance file"))
  let ej := exportJson r.1 (a.outputDir ++ "/" ++ baseName ++ "_provenance")
  pure ((["Successfully generated " ++ a.shape ++ ":",
    "  3D Model: " ++ modelPath] ++ r.2) ++ ["  Provenance: " ++ ej.2.1])

/-- `run_generate`: the catch-all around the body — any raised exception
becomes one stderr line and exit code 1. -/
def runGenerate (a : GenArgs) (env : GenEnv) : CliResult :=
  match runGenerateBody a env with
  | .ok out => ⟨0, out, []⟩
  | .error e => ⟨1, [], ["Error: " ++ errMessage e]⟩

/-- The `try` body of `run_scan`: mkdir, scanner construction, single or
multiple capture, saving every stored frame, provenance recording per
saved frame, provenance export, and the success lines. -/
def runScanBody (a : ScanArgs) (env : ScanEnv) : Except PyErr (List String) := do
  let _ ← check env.mkdirOk (.osError ("cannot create output directory"))
  let s0 ← mkCameraScanner a.cameraIndex a.frameWidth a.frameHeight
  let s1 ← (if a.numFrames = 1 then do
      let p ← captureFrame s0 env.cam
      pure p.2
    else do
      let p ← captureMultiple s0 a.numFrames env.cam
      pure p.2)
  let savedPaths ← saveAllFrames s1 a.outputDir a.pfx
  let t0 := newTracker defaultNamespace
  let t1 := recordAgent t0 "software" "3DProvenance" projectVersion
  let t2 := recordActivity t1 "scanning" "Scan 3D object with camera"
    (getParametersScan s1)
  let tracker := savedPaths.enum.foldl (fun t p =>
    recordAttribution
      (recordGeneration
        (recordEntity t ("scan_frame_" ++ toString p.1) "ScannedImage" p.2
          [("frame_index", toString p.1), ("width", toString a.frameWidth),
           ("height", toString a.frameHeight)])
        ("scan_frame_" ++ toString p.1) "scanning")
      ("scan_frame_" ++ toString p.1) "software") t2
  let _ ← check env.provWriteOk (.osError ("cannot write provenance file"))
  let ej := exportJson tracker (a.outputDir ++ "/" ++ a.pfx ++ "_provenance")
  pure (["Successfully scanned " ++ toString savedPaths.length ++ " frame(s):"]
    ++ savedPaths.map (fun q => "  Frame: " ++ q)
    ++ ["  Provenance: " ++ ej.2.1])

/-- `run_scan`: the catch-all around the body. -/
def runScan (a : ScanArgs) (env : ScanEnv) : CliResult :=
  match runScanBody a env with
  | .ok out => ⟨0, out, []⟩
  | .error e => ⟨1, [], ["Error: " ++ errMessage e]⟩

/-- C5: for every argument set and every failure pattern of the delegated
effects, `run_generate` and `run_scan` either succeed with exit code 0 and
no stderr output, or return exit code 1 with exactly one stderr error
line; no exception escapes (both drivers totally produce a `CliResult`). -/
theorem cli_catches_all_failures (a : GenArgs) (envG : GenEnv)
    (b : ScanArgs) (envS : ScanEnv) :
    (((runGenerate a envG).exitCode = 0
        ∧ (runGenerate a envG).stderrLines = [])
      ∨ ((runGenerate a envG).exitCode = 1
        ∧ (runGenerate a envG).stderrLines.length = 1))
    ∧ (((runScan b envS).exitCode = 0 ∧ (runScan b envS).stderrLines = [])
      ∨ ((runScan b envS).exitCode = 1
        ∧ (runScan b envS).stderrLines.length = 1)) := by
  constructor
  · unfold runGenerate
    cases runGenerateBody a envG <;> simp
  · unfold runScan
    cases runScanBody b envS <;> simp

end ObjFingerprint
